import Mathlib

/-!
Shallow embedding of `src/burnchains/mod.rs` (stacks-core hyperchains burnchain
core): PoX economic constants, burnchain genesis parameter catalog, the
chain-agnostic transaction/view types, and the error taxonomy, together with
proofs of the specified properties.

Machine integers (u32/u64/u128) are embedded as `Nat`; where the Rust code can
overflow, the reduction modulo `2 ^ width` is written explicitly, and Rust's
`checked_mul(..).expect(..)` (panic on overflow) is embedded as an
`Option`-returning function where `none` stands for the panic.
-/

namespace Burnchains

/-- Width bound of Rust's `u128`. -/
def U128_MOD : Nat := 2 ^ 128

/-- Width bound of Rust's `u32`. -/
def U32_MOD : Nat := 2 ^ 32

/-- Rust `u128::checked_mul`: `some` of the exact product when it fits in a
`u128`, `none` on overflow. -/
def checked_mul_u128 (a b : Nat) : Option Nat :=
  if a * b < U128_MOD then some (a * b) else none

/-- Modelled from the spec: `OUTPUTS_PER_COMMIT` lives in
`chainstate::burn::operations::leader_block_commit`, which is not under `src/`.
The spec calls it the "fixed fan-out constant of the commitment-operation
format"; its value in the repository is 2. -/
def OUTPUTS_PER_COMMIT : Nat := 2

/-- Modelled from the spec: `POX_REWARD_CYCLE_LENGTH` is defined in `core`,
not under `src/`. The source comment at `testnet_default`
(`POX_REWARD_CYCLE_LENGTH / 2, // 1050`) fixes it to 2100. -/
def POX_REWARD_CYCLE_LENGTH : Nat := 2100

/-- Modelled from the spec: `POX_PREPARE_WINDOW_LENGTH` is defined in `core`,
not under `src/`. The source comment at `testnet_default`
(`POX_PREPARE_WINDOW_LENGTH / 2, // 50`) fixes it to 100. -/
def POX_PREPARE_WINDOW_LENGTH : Nat := 100

/-- Modelled from the spec: `POX_SUNSET_START` is defined in `core`, not under
`src/`; the spec only requires a sunset window with start before end. The
repository value is 100000. -/
def POX_SUNSET_START : Nat := 100000

/-- Modelled from the spec: `POX_SUNSET_END` is defined in `core`, not under
`src/`. The repository value is 400000. -/
def POX_SUNSET_END : Nat := 400000

/-- Modelled from the spec: the bitcoin mainnet genesis height constant lives
in `core`, not under `src/`. -/
def BITCOIN_MAINNET_FIRST_BLOCK_HEIGHT : Nat := 666050

/-- Modelled from the spec: the bitcoin testnet genesis height constant lives
in `core`, not under `src/`. -/
def BITCOIN_TESTNET_FIRST_BLOCK_HEIGHT : Nat := 2000000

/-- Modelled from the spec: the bitcoin regtest genesis height constant lives
in `core`, not under `src/`. -/
def BITCOIN_REGTEST_FIRST_BLOCK_HEIGHT : Nat := 0

/-- PoX economic constant set (`PoxConstants`). Field order follows the Rust
struct declaration (`sunset_end` before `sunset_start`); the private
`_shadow: PhantomData` marker carries no data and is dropped. -/
structure PoxConstants where
  reward_cycle_length : Nat
  prepare_length : Nat
  anchor_threshold : Nat
  pox_rejection_fraction : Nat
  pox_participation_threshold_pct : Nat
  sunset_end : Nat
  sunset_start : Nat
deriving DecidableEq

/-- `PoxConstants::new`: the three `assert!`s abort construction (embedded as
`none`); otherwise the fields are stored verbatim. -/
def PoxConstants.new (reward_cycle_length prepare_length anchor_threshold
    pox_rejection_fraction pox_participation_threshold_pct
    sunset_start sunset_end : Nat) : Option PoxConstants :=
  if anchor_threshold > prepare_length / 2 ∧ prepare_length < reward_cycle_length
      ∧ sunset_start ≤ sunset_end then
    some ⟨reward_cycle_length, prepare_length, anchor_threshold,
      pox_rejection_fraction, pox_participation_threshold_pct,
      sunset_end, sunset_start⟩
  else
    none

/-- `PoxConstants::reward_slots`: `(reward_cycle_length - prepare_length) *
(OUTPUTS_PER_COMMIT as u32)` in u32 arithmetic. Rust u32 subtraction of
`prepare_length` from `reward_cycle_length` is embedded as truncated `Nat`
subtraction, which agrees with the source whenever `prepare_length ≤
reward_cycle_length` (guaranteed by the constructor invariant); the u32
multiplication wraps modulo `2 ^ 32`. -/
def PoxConstants.reward_slots (c : PoxConstants) : Nat :=
  ((c.reward_cycle_length - c.prepare_length) * OUTPUTS_PER_COMMIT) % U32_MOD

/-- `PoxConstants::enough_participation`:
`participating_ustx.checked_mul(100).expect(..) >
 liquid_ustx.checked_mul(pct as u128).expect(..)`; a failing `expect`
(u128 overflow) is the `none` outcome. -/
def PoxConstants.enough_participation (c : PoxConstants)
    (participating_ustx liquid_ustx : Nat) : Option Bool :=
  match checked_mul_u128 participating_ustx 100 with
  | none => none
  | some x =>
    match checked_mul_u128 liquid_ustx c.pox_participation_threshold_pct with
    | none => none
    | some y => some (decide (x > y))

/-- `PoxConstants::mainnet_default`. -/
def PoxConstants.mainnet_default : Option PoxConstants :=
  PoxConstants.new POX_REWARD_CYCLE_LENGTH POX_PREPARE_WINDOW_LENGTH 80 25 5
    (BITCOIN_MAINNET_FIRST_BLOCK_HEIGHT + POX_SUNSET_START)
    (BITCOIN_MAINNET_FIRST_BLOCK_HEIGHT + POX_SUNSET_END)

/-- `PoxConstants::testnet_default`. -/
def PoxConstants.testnet_default : Option PoxConstants :=
  PoxConstants.new (POX_REWARD_CYCLE_LENGTH / 2) (POX_PREPARE_WINDOW_LENGTH / 2)
    40 12 2
    (BITCOIN_TESTNET_FIRST_BLOCK_HEIGHT + POX_SUNSET_START)
    (BITCOIN_TESTNET_FIRST_BLOCK_HEIGHT + POX_SUNSET_END)

/-- `PoxConstants::regtest_default`. -/
def PoxConstants.regtest_default : Option PoxConstants :=
  PoxConstants.new 5 1 1 3333333333333333 1
    (BITCOIN_REGTEST_FIRST_BLOCK_HEIGHT + POX_SUNSET_START)
    (BITCOIN_REGTEST_FIRST_BLOCK_HEIGHT + POX_SUNSET_END)

/-- Sample PoX constant set, the arguments of the in-tree `test_default`
(`PoxConstants::new(10, 5, 3, 25, 5, 5000, 10000)`). -/
def PoxConstants.test_default_value : PoxConstants :=
  ⟨10, 5, 3, 25, 5, 10000, 5000⟩

/-- `BurnchainHeaderHash`: an opaque 32-byte hash, embedded as a wrapped
natural number (the claims never inspect the byte representation). -/
structure BurnchainHeaderHash where
  val : Nat
deriving DecidableEq

/-- Modelled from the spec: the genesis block-hash hex constants
(`BITCOIN_*_FIRST_BLOCK_HASH` in `core`) are not under `src/`; the claims
never inspect them, so they are three distinct opaque tokens. -/
def BITCOIN_MAINNET_FIRST_BLOCK_HASH : BurnchainHeaderHash := ⟨1⟩

/-- Modelled from the spec: testnet genesis block hash, see
`BITCOIN_MAINNET_FIRST_BLOCK_HASH`. -/
def BITCOIN_TESTNET_FIRST_BLOCK_HASH : BurnchainHeaderHash := ⟨2⟩

/-- Modelled from the spec: regtest genesis block hash, see
`BITCOIN_MAINNET_FIRST_BLOCK_HASH`. -/
def BITCOIN_REGTEST_FIRST_BLOCK_HASH : BurnchainHeaderHash := ⟨3⟩

/-- Modelled from the spec: the genesis timestamp constants in `core` are not
under `src/`; values irrelevant to the claims. -/
def BITCOIN_MAINNET_FIRST_BLOCK_TIMESTAMP : Nat := 1610643248

/-- Modelled from the spec: testnet genesis timestamp, see
`BITCOIN_MAINNET_FIRST_BLOCK_TIMESTAMP`. -/
def BITCOIN_TESTNET_FIRST_BLOCK_TIMESTAMP : Nat := 1610643803

/-- Modelled from the spec: regtest genesis timestamp, see
`BITCOIN_MAINNET_FIRST_BLOCK_TIMESTAMP`. -/
def BITCOIN_REGTEST_FIRST_BLOCK_TIMESTAMP : Nat := 0

/-- Modelled from the spec: `BITCOIN_MAINNET_INITIAL_REWARD_START_BLOCK` lives
in `core`, not under `src/`; the spec fixes the mainnet initial reward-start
block to the mainnet genesis first-block height. -/
def BITCOIN_MAINNET_INITIAL_REWARD_START_BLOCK : Nat :=
  BITCOIN_MAINNET_FIRST_BLOCK_HEIGHT

/-- `BurnchainParameters`: immutable genesis descriptor per (chain, network). -/
structure BurnchainParameters where
  chain_name : String
  network_name : String
  network_id : Nat
  stable_confirmations : Nat
  consensus_hash_lifetime : Nat
  first_block_height : Nat
  first_block_hash : BurnchainHeaderHash
  first_block_timestamp : Nat
  initial_reward_start_block : Nat
deriving DecidableEq

/-- `BurnchainParameters::bitcoin_mainnet`. -/
def BurnchainParameters.bitcoin_mainnet : BurnchainParameters :=
  ⟨"bitcoin", "mainnet", 0, 7, 24,
    BITCOIN_MAINNET_FIRST_BLOCK_HEIGHT, BITCOIN_MAINNET_FIRST_BLOCK_HASH,
    BITCOIN_MAINNET_FIRST_BLOCK_TIMESTAMP,
    BITCOIN_MAINNET_INITIAL_REWARD_START_BLOCK⟩

/-- `BurnchainParameters::bitcoin_testnet`; the initial reward-start block is
computed inline as `BITCOIN_TESTNET_FIRST_BLOCK_HEIGHT - 10_000`. -/
def BurnchainParameters.bitcoin_testnet : BurnchainParameters :=
  ⟨"bitcoin", "testnet", 1, 7, 24,
    BITCOIN_TESTNET_FIRST_BLOCK_HEIGHT, BITCOIN_TESTNET_FIRST_BLOCK_HASH,
    BITCOIN_TESTNET_FIRST_BLOCK_TIMESTAMP,
    BITCOIN_TESTNET_FIRST_BLOCK_HEIGHT - 10000⟩

/-- `BurnchainParameters::bitcoin_regtest`. -/
def BurnchainParameters.bitcoin_regtest : BurnchainParameters :=
  ⟨"bitcoin", "regtest", 2, 1, 24,
    BITCOIN_REGTEST_FIRST_BLOCK_HEIGHT, BITCOIN_REGTEST_FIRST_BLOCK_HASH,
    BITCOIN_REGTEST_FIRST_BLOCK_TIMESTAMP,
    BITCOIN_REGTEST_FIRST_BLOCK_HEIGHT⟩

/-- `BurnchainParameters::from_params`: the Rust `match (chain, network)` on
string literals, written as a cascade of equality tests. -/
def BurnchainParameters.from_params (chain network : String) :
    Option BurnchainParameters :=
  if chain = "bitcoin" ∧ network = "mainnet" then
    some BurnchainParameters.bitcoin_mainnet
  else if chain = "bitcoin" ∧ network = "testnet" then
    some BurnchainParameters.bitcoin_testnet
  else if chain = "bitcoin" ∧ network = "regtest" then
    some BurnchainParameters.bitcoin_regtest
  else
    none

/-- `BurnchainParameters::is_testnet`. -/
def BurnchainParameters.is_testnet (network_id : Nat) : Bool :=
  if network_id = 0 then false else true

/-- `Txid`: opaque 32-byte transaction identifier. -/
structure Txid where
  val : Nat
deriving DecidableEq

/-- `StacksBlockId`: opaque Stacks block identifier. -/
structure StacksBlockId where
  val : Nat
deriving DecidableEq

/-- `BlockHeaderHash`: opaque block-header hash. -/
structure BlockHeaderHash where
  val : Nat
deriving DecidableEq

/-- `StacksHyperOpType`: the inner payload of a Layer-1 Stacks event. -/
inductive StacksHyperOpType where
  | BlockCommit (subnet_block_hash : BlockHeaderHash)
deriving DecidableEq

/-- `StacksHyperOp`: an operation parsed from the Layer-1 events API. -/
structure StacksHyperOp where
  txid : Txid
  in_block : StacksBlockId
  opcode : Nat
  event_index : Nat
  event : StacksHyperOpType
deriving DecidableEq

/-- `BurnchainTransaction`: closed sum type over Layer-1 operation encodings;
today the single variant `StacksBase`. -/
inductive BurnchainTransaction where
  | StacksBase (tx : StacksHyperOp)
deriving DecidableEq

/-- `BurnchainTransaction::txid`. -/
def BurnchainTransaction.txid : BurnchainTransaction → Txid
  | .StacksBase tx => tx.txid

/-- `BurnchainTransaction::vtxindex`. -/
def BurnchainTransaction.vtxindex : BurnchainTransaction → Nat
  | .StacksBase tx => tx.event_index

/-- `BurnchainTransaction::opcode`. -/
def BurnchainTransaction.opcode : BurnchainTransaction → Nat
  | .StacksBase tx => tx.opcode

/-- `BurnchainTransaction::get_burn_amount`: the source body is the literal
`0`, for every variant. -/
def BurnchainTransaction.get_burn_amount (_ : BurnchainTransaction) : Nat :=
  0

/-- `BurnchainView`: snapshot of tip and stable block plus the recent
height-to-hash map; the `HashMap<u64, BurnchainHeaderHash>` is embedded as an
association list with `List.lookup` access (the construction below inserts
each key exactly once). -/
structure BurnchainView where
  burn_block_height : Nat
  burn_block_hash : BurnchainHeaderHash
  burn_stable_block_height : Nat
  burn_stable_block_hash : BurnchainHeaderHash
  last_burn_block_hashes : List (Nat × BurnchainHeaderHash)
deriving DecidableEq

/-- `BurnchainView::make_test_data`. Two pieces of the loop are parameters:
`max_neighbor_block_delay` stands for the constant
`net::neighbors::MAX_NEIGHBOR_BLOCK_DELAY` (repository code not under `src/`;
the claims quantify over this window), and `filler` stands for the SHA-256
digest of the height's little-endian bytes computed via the external `sha2`
crate — the claims never constrain the filler hashes. The loop over
`oldest_height..burn_block_height + 1` becomes a map over `List.range'`. -/
def BurnchainView.make_test_data (max_neighbor_block_delay : Nat)
    (filler : Nat → BurnchainHeaderHash) (v : BurnchainView) : BurnchainView :=
  let oldest_height :=
    if v.burn_stable_block_height < max_neighbor_block_delay then 0
    else v.burn_stable_block_height - max_neighbor_block_delay
  let ret :=
    (List.range' oldest_height (v.burn_block_height + 1 - oldest_height)).map
      fun i =>
        if i = v.burn_stable_block_height then (i, v.burn_stable_block_hash)
        else if i = v.burn_block_height then (i, v.burn_block_hash)
        else (i, filler i)
  ⟨v.burn_block_height, v.burn_block_hash, v.burn_stable_block_height,
    v.burn_stable_block_hash, ret⟩

/-- Modelled from the spec: `rusqlite::Error` is an external-crate type; only
its display text matters to the claims, so it is embedded as that text. -/
structure sqlite_error where
  message : String
deriving DecidableEq

/-- Display text of a `rusqlite::Error`. -/
def sqlite_error.display (e : sqlite_error) : String :=
  e.message

/-- Modelled from the spec: `util::db::Error` (`db_error`) is repository code
not under `src/`. The spec requires the storage-error conversions to be
lossless in display text, so the variant used by `From<sqlite_error>`
(`SqliteError`) displays its wrapped error's text; the remaining variants are
collapsed into an opaque displayed-text carrier. -/
inductive db_error where
  | SqliteError (e : sqlite_error)
  | Other (msg : String)
deriving DecidableEq

/-- Display text of a `util::db::Error`; `SqliteError` delegates to the
wrapped sqlite error. -/
def db_error.display : db_error → String
  | .SqliteError e => e.display
  | .Other msg => msg

/-- Modelled from the spec: `std::io::Error` is a standard-library type;
embedded as its display text. -/
structure io_error where
  message : String
deriving DecidableEq

/-- Display text of a `std::io::Error`. -/
def io_error.display (e : io_error) : String :=
  e.message

/-- Modelled from the spec: `chainstate::burn::operations::Error` (`op_error`)
is not under `src/`; embedded as its display text. -/
structure op_error where
  message : String
deriving DecidableEq

/-- Display text of an operation-processing error. -/
def op_error.display (e : op_error) : String :=
  e.message

/-- `PoxId`: opaque reward-cycle identifier (external type), embedded with a
display text since the error formatter prints it. -/
structure PoxId where
  text : String
deriving DecidableEq

/-- Display text of a `PoxId`. -/
def PoxId.display (p : PoxId) : String :=
  p.text

/-- Display text of a `BurnchainHeaderHash` (the external hex formatter is
opaque to the claims; any injective rendering works). -/
def BurnchainHeaderHash.display (h : BurnchainHeaderHash) : String :=
  toString h.val

/-- `burnchains::Error`: the closed failure taxonomy. -/
inductive Error where
  | UnsupportedBurnchain
  | Bitcoin (msg : String)
  | DBError (e : db_error)
  | DownloadError (msg : String)
  | ParseError
  | ThreadChannelError
  | MissingHeaders
  | MissingParentBlock
  | BurnchainPeerBroken
  | FSError (e : io_error)
  | OpError (e : op_error)
  | TrySyncAgain
  | UnknownBlock (block : BurnchainHeaderHash)
  | NonCanonicalPoxId (parent child : PoxId)
  | CoordinatorClosed
deriving DecidableEq

/-- `impl fmt::Display for Error`: each wrapping variant delegates to the
wrapped error's display; the others are fixed strings. -/
def Error.display : Error → String
  | .UnsupportedBurnchain => "Unsupported burnchain"
  | .Bitcoin btce => btce
  | .DBError dbe => dbe.display
  | .DownloadError btce => btce
  | .ParseError => "Parse error"
  | .MissingHeaders => "Missing block headers"
  | .MissingParentBlock => "Missing parent block"
  | .ThreadChannelError => "Error in thread channel"
  | .BurnchainPeerBroken => "Remote burnchain peer has misbehaved"
  | .FSError e => e.display
  | .OpError e => e.display
  | .TrySyncAgain => "Try synchronizing again"
  | .UnknownBlock block => "Unknown burnchain block " ++ block.display
  | .NonCanonicalPoxId parent child =>
      parent.display ++ " is not a descendant of the canonical parent PoXId: "
        ++ child.display
  | .CoordinatorClosed => "ChainsCoordinator channel hung up"

/-- `impl From<db_error> for Error`. -/
def Error.from_db_error (e : db_error) : Error :=
  Error.DBError e

/-- `impl From<sqlite_error> for Error`: wraps into
`DBError(db_error::SqliteError(e))`. -/
def Error.from_sqlite_error (e : sqlite_error) : Error :=
  Error.DBError (db_error.SqliteError e)

/-! ### Helper lemmas -/

/-- Looking up a key in the association list obtained by mapping a
first-component-preserving function over `List.range' a n` finds exactly the
keys of the range. -/
theorem lookup_range'_map (f : Nat → Nat × BurnchainHeaderHash)
    (hf : ∀ i, (f i).1 = i) :
    ∀ (n a h : Nat), ((List.range' a n).map f).lookup h =
      if a ≤ h ∧ h < a + n then some (f h).2 else none := by
  intro n
  induction n with
  | zero =>
    intro a h
    rw [if_neg (by omega)]
    rfl
  | succ n ih =>
    intro a h
    rw [List.range'_succ a n 1, List.map_cons]
    rcases hfa : f a with ⟨k, b⟩
    have hk : k = a := by
      have hx := hf a
      rw [hfa] at hx
      exact hx
    subst hk
    by_cases hha : h = k
    · subst hha
      rw [if_pos (by omega), hfa]
      simp [List.lookup]
    · simp only [List.lookup]
      rw [beq_eq_false_iff_ne.mpr hha, ih (k + 1) h]
      by_cases hc : k + 1 ≤ h ∧ h < k + 1 + n
      · rw [if_pos hc, if_pos (by omega)]
      · rw [if_neg hc, if_neg (by omega)]

/-- The height-to-hash map built by `make_test_data` behaves as a function on
the interval `[stable_height - delay, tip_height]`: stable height wins over
tip height, then tip height, then the filler. -/
theorem make_test_data_lookup (max_neighbor_block_delay : Nat)
    (filler : Nat → BurnchainHeaderHash) (v : BurnchainView) (h : Nat) :
    ((BurnchainView.make_test_data max_neighbor_block_delay filler
        v).last_burn_block_hashes).lookup h =
      if v.burn_stable_block_height - max_neighbor_block_delay ≤ h
          ∧ h ≤ v.burn_block_height then
        some (if h = v.burn_stable_block_height then v.burn_stable_block_hash
          else if h = v.burn_block_height then v.burn_block_hash
          else filler h)
      else none := by
  unfold BurnchainView.make_test_data
  have holdest :
      (if v.burn_stable_block_height < max_neighbor_block_delay then 0
        else v.burn_stable_block_height - max_neighbor_block_delay) =
        v.burn_stable_block_height - max_neighbor_block_delay := by
    split
    · omega
    · rfl
  rw [holdest]
  rw [lookup_range'_map _ (by
    intro i
    by_cases h1 : i = v.burn_stable_block_height
    · rw [if_pos h1]
    · rw [if_neg h1]
      by_cases h2 : i = v.burn_block_height
      · rw [if_pos h2]
      · rw [if_neg h2])]
  by_cases hcond : v.burn_stable_block_height - max_neighbor_block_delay ≤ h
      ∧ h ≤ v.burn_block_height
  · rw [if_pos (by omega), if_pos hcond]
    by_cases h1 : h = v.burn_stable_block_height
    · rw [if_pos h1, if_pos h1]
    · rw [if_neg h1, if_neg h1]
      by_cases h2 : h = v.burn_block_height
      · rw [if_pos h2, if_pos h2]
      · rw [if_neg h2, if_neg h2]
  · rw [if_neg (by omega), if_neg hcond]

/-! ### Claim theorems -/

/-- Claim C1: for every PoxConstants value and all u128 inputs, when neither
product overflows u128, `enough_participation participating liquid` returns
`true` iff `participating * 100 > liquid * pox_participation_threshold_pct`
in exact arithmetic; when either multiplication overflows u128, the call
panics (`none`) rather than wrapping. -/
theorem enough_participation_checked_exact (c : PoxConstants) (p l : Nat)
    (hp : p < U128_MOD) (hl : l < U128_MOD) :
    (p * 100 < U128_MOD → l * c.pox_participation_threshold_pct < U128_MOD →
      (c.enough_participation p l = some true ↔
        l * c.pox_participation_threshold_pct < p * 100)) ∧
    (U128_MOD ≤ p * 100 ∨ U128_MOD ≤ l * c.pox_participation_threshold_pct →
      c.enough_participation p l = none) := by
  constructor
  · intro h1 h2
    simp [PoxConstants.enough_participation, checked_mul_u128, if_pos h1,
      if_pos h2]
  · intro h
    by_cases hp1 : p * 100 < U128_MOD
    · rcases h with h | h
      · omega
      · simp [PoxConstants.enough_participation, checked_mul_u128, if_pos hp1,
          if_neg (Nat.not_lt.mpr h)]
    · simp [PoxConstants.enough_participation, checked_mul_u128, if_neg hp1]

/-- Witness for C1: at the in-tree test constants (threshold 5%), full
participation of 1 uSTX out of 1 liquid uSTX is enough. -/
theorem enough_participation_checked_exact_witness :
    (1 : Nat) < U128_MOD ∧
    PoxConstants.test_default_value.enough_participation 1 1 = some true :=
  ⟨by decide,
    ((enough_participation_checked_exact PoxConstants.test_default_value 1 1
      (by decide) (by decide)).1 (by decide) (by decide)).mpr (by decide)⟩

/-- Claim C2: `PoxConstants::new` aborts (returns `none`, embedding the
`assert!` panic) whenever `anchor_threshold ≤ prepare_length / 2`, or
`prepare_length ≥ reward_cycle_length`, or `sunset_start > sunset_end`; and
the mainnet, testnet and regtest default constructors all succeed. -/
theorem pox_constants_new_asserts :
    (∀ r p a rf pct ss se : Nat, (a ≤ p / 2 ∨ r ≤ p ∨ se < ss) →
      PoxConstants.new r p a rf pct ss se = none) ∧
    PoxConstants.mainnet_default.isSome = true ∧
    PoxConstants.testnet_default.isSome = true ∧
    PoxConstants.regtest_default.isSome = true := by
  refine ⟨?_, by decide, by decide, by decide⟩
  intro r p a rf pct ss se h
  have hc : ¬(a > p / 2 ∧ p < r ∧ ss ≤ se) := by omega
  simp [PoxConstants.new, if_neg hc]

/-- Witness for C2: an anchor threshold of 0 (not above `prepare_length / 2 =
0`) aborts construction. -/
theorem pox_constants_new_asserts_witness :
    ((0 : Nat) ≤ 0 / 2 ∨ (1 : Nat) ≤ 0 ∨ (0 : Nat) < 0) ∧
    PoxConstants.new 1 0 0 0 0 0 0 = none :=
  ⟨by decide, pox_constants_new_asserts.1 1 0 0 0 0 0 0 (by decide)⟩

/-- Counterexample for C3: the successfully constructed PoxConstants with
`reward_cycle_length = u32::MAX` and `prepare_length = 0` makes the u32
multiplication in `reward_slots` wrap: the result 4294967294 is not the exact
product `(reward_cycle_length - prepare_length) * OUTPUTS_PER_COMMIT =
8589934590`. -/
theorem reward_slots_exact_product_cex :
    PoxConstants.new 4294967295 0 1 0 0 0 0 =
      some ⟨4294967295, 0, 1, 0, 0, 0, 0⟩ ∧
    PoxConstants.reward_slots ⟨4294967295, 0, 1, 0, 0, 0, 0⟩ = 4294967294 ∧
    (4294967295 - 0) * OUTPUTS_PER_COMMIT = 8589934590 := by
  exact ⟨by decide, by decide, by decide⟩

/-- Claim C3 (amended): for every successfully constructed PoxConstants whose
slot product fits in u32, `reward_slots` returns exactly
`(reward_cycle_length - prepare_length) * OUTPUTS_PER_COMMIT`; and the regtest
default set yields `4 * OUTPUTS_PER_COMMIT`. -/
theorem reward_slots_exact_product (r p a rf pct ss se : Nat)
    (v : PoxConstants) (hv : PoxConstants.new r p a rf pct ss se = some v)
    (hfit : (v.reward_cycle_length - v.prepare_length) * OUTPUTS_PER_COMMIT
      < U32_MOD) :
    v.reward_slots =
      (v.reward_cycle_length - v.prepare_length) * OUTPUTS_PER_COMMIT ∧
    PoxConstants.regtest_default.map PoxConstants.reward_slots =
      some (4 * OUTPUTS_PER_COMMIT) := by
  refine ⟨?_, by decide⟩
  unfold PoxConstants.reward_slots
  exact Nat.mod_eq_of_lt hfit

/-- Witness for C3: the regtest-shaped constants (cycle 5, prepare 1) give
exactly `(5 - 1) * OUTPUTS_PER_COMMIT` slots. -/
theorem reward_slots_exact_product_witness :
    PoxConstants.new 5 1 1 0 0 0 0 = some ⟨5, 1, 1, 0, 0, 0, 0⟩ ∧
    PoxConstants.reward_slots ⟨5, 1, 1, 0, 0, 0, 0⟩ =
      (5 - 1) * OUTPUTS_PER_COMMIT :=
  ⟨by decide,
    (reward_slots_exact_product 5 1 1 0 0 0 0 ⟨5, 1, 1, 0, 0, 0, 0⟩
      (by decide) (by decide)).1⟩

/-- Counterexample for C4: with the in-tree test constants (threshold 5%,
so below 100% and above 0%), `enough_participation(liquid, liquid)` is `false`
at `liquid = 0`, and `enough_participation(0, liquid)` panics (rather than
returning `false`) at `liquid = u128::MAX` because `liquid * 5` overflows. -/
theorem enough_participation_extremes_cex :
    PoxConstants.test_default_value.pox_participation_threshold_pct < 100 ∧
    PoxConstants.test_default_value.enough_participation 0 0 ≠ some true ∧
    0 < PoxConstants.test_default_value.pox_participation_threshold_pct ∧
    PoxConstants.test_default_value.enough_participation 0 (U128_MOD - 1) ≠
      some false := by
  exact ⟨by decide, by decide, by decide, by decide⟩

/-- Claim C4 (amended): `enough_participation(liquid, liquid)` returns `true`
whenever the threshold is below 100%, the liquid supply is nonzero, and
`liquid * 100` fits in u128; and `enough_participation(0, liquid)` returns
`false` whenever the threshold is above 0 and `liquid * threshold` fits in
u128. -/
theorem enough_participation_extremes :
    (∀ (c : PoxConstants) (l : Nat),
      c.pox_participation_threshold_pct < 100 → 0 < l →
      l * 100 < U128_MOD → c.enough_participation l l = some true) ∧
    (∀ (c : PoxConstants) (l : Nat),
      0 < c.pox_participation_threshold_pct →
      l * c.pox_participation_threshold_pct < U128_MOD →
      c.enough_participation 0 l = some false) := by
  constructor
  · intro c l hpct hl hfit
    have hlt : l * c.pox_participation_threshold_pct < l * 100 :=
      Nat.mul_lt_mul_of_le_of_lt (le_refl l) hpct hl
    simp [PoxConstants.enough_participation, checked_mul_u128, if_pos hfit,
      if_pos (lt_trans hlt hfit), hlt]
  · intro c l hpct hfit
    simp [PoxConstants.enough_participation, checked_mul_u128, if_pos hfit,
      show (0 : Nat) < U128_MOD from by decide]

/-- Witness for C4 (amended): at threshold 5%, 7 of 7 uSTX participating is
enough, and 0 of 7 is not. -/
theorem enough_participation_extremes_witness :
    PoxConstants.test_default_value.enough_participation 7 7 = some true ∧
    PoxConstants.test_default_value.enough_participation 0 7 = some false :=
  ⟨enough_participation_extremes.1 PoxConstants.test_default_value 7
      (by decide) (by decide) (by decide),
    enough_participation_extremes.2 PoxConstants.test_default_value 7
      (by decide) (by decide)⟩

/-- Claim C5: `from_params` returns `some` exactly for bitcoin-mainnet,
bitcoin-testnet and bitcoin-regtest (returning the respective fixed table) and
`none` for every other pair; the tables have stable-confirmation depth 7, 7, 1,
consensus-hash lifetime 24 everywhere, and initial reward-start block equal to
the genesis height for mainnet and regtest and genesis height minus 10000 for
testnet. -/
theorem from_params_table :
    BurnchainParameters.from_params "bitcoin" "mainnet" =
      some BurnchainParameters.bitcoin_mainnet ∧
    BurnchainParameters.from_params "bitcoin" "testnet" =
      some BurnchainParameters.bitcoin_testnet ∧
    BurnchainParameters.from_params "bitcoin" "regtest" =
      some BurnchainParameters.bitcoin_regtest ∧
    (∀ chain network : String,
      ¬(chain = "bitcoin" ∧ (network = "mainnet" ∨ network = "testnet"
        ∨ network = "regtest")) →
      BurnchainParameters.from_params chain network = none) ∧
    BurnchainParameters.bitcoin_mainnet.stable_confirmations = 7 ∧
    BurnchainParameters.bitcoin_testnet.stable_confirmations = 7 ∧
    BurnchainParameters.bitcoin_regtest.stable_confirmations = 1 ∧
    BurnchainParameters.bitcoin_mainnet.consensus_hash_lifetime = 24 ∧
    BurnchainParameters.bitcoin_testnet.consensus_hash_lifetime = 24 ∧
    BurnchainParameters.bitcoin_regtest.consensus_hash_lifetime = 24 ∧
    BurnchainParameters.bitcoin_mainnet.initial_reward_start_block =
      BurnchainParameters.bitcoin_mainnet.first_block_height ∧
    BurnchainParameters.bitcoin_regtest.initial_reward_start_block =
      BurnchainParameters.bitcoin_regtest.first_block_height ∧
    BurnchainParameters.bitcoin_testnet.initial_reward_start_block =
      BurnchainParameters.bitcoin_testnet.first_block_height - 10000 := by
  refine ⟨by decide, by decide, by decide, ?_, by decide, by decide, by decide,
    by decide, by decide, by decide, by decide, by decide, by decide⟩
  intro chain network h
  by_cases h1 : chain = "bitcoin" ∧ network = "mainnet"
  · exact absurd ⟨h1.1, Or.inl h1.2⟩ h
  by_cases h2 : chain = "bitcoin" ∧ network = "testnet"
  · exact absurd ⟨h2.1, Or.inr (Or.inl h2.2)⟩ h
  by_cases h3 : chain = "bitcoin" ∧ network = "regtest"
  · exact absurd ⟨h3.1, Or.inr (Or.inr h3.2)⟩ h
  simp [BurnchainParameters.from_params, if_neg h1, if_neg h2, if_neg h3]

/-- Witness for C5: an unsupported chain key is absent, not an error. -/
theorem from_params_table_witness :
    ¬(("ethereum" : String) = "bitcoin" ∧ (("mainnet" : String) = "mainnet"
      ∨ ("mainnet" : String) = "testnet" ∨ ("mainnet" : String) = "regtest")) ∧
    BurnchainParameters.from_params "ethereum" "mainnet" = none :=
  ⟨by decide, from_params_table.2.2.2.1 "ethereum" "mainnet" (by decide)⟩

/-- Counterexample for C6: at tip height 0 / tip hash 1, stable height 0 /
stable hash 2 (so stable height ≤ tip height as the claim allows), the
produced map sends the tip height to the stable hash, not to the tip hash. -/
theorem make_test_data_map_spec_cex :
    (0 : Nat) ≤ 0 ∧
    ((BurnchainView.make_test_data 0 (fun _ => ⟨0⟩)
        ⟨0, ⟨1⟩, 0, ⟨2⟩, []⟩).last_burn_block_hashes).lookup 0 = some ⟨2⟩ ∧
    (⟨2⟩ : BurnchainHeaderHash) ≠ ⟨1⟩ := by
  exact ⟨by decide, by decide, by decide⟩

/-- Claim C6 (amended): for a view with stable height S ≤ tip height T and
any neighbor-block-delay window D, the produced height-to-hash map has key set
exactly `[S - D, T]` (truncated subtraction, i.e. `max 0 (S - D)`), maps S to
the stable hash, and — provided S ≠ T — maps T to the tip hash (at S = T the
stable-hash entry wins). -/
theorem make_test_data_map_spec (delay : Nat)
    (filler : Nat → BurnchainHeaderHash) (v : BurnchainView)
    (hst : v.burn_stable_block_height ≤ v.burn_block_height) :
    (∀ h : Nat,
      (((BurnchainView.make_test_data delay filler
          v).last_burn_block_hashes).lookup h).isSome = true ↔
        (v.burn_stable_block_height - delay ≤ h
          ∧ h ≤ v.burn_block_height)) ∧
    ((BurnchainView.make_test_data delay filler
        v).last_burn_block_hashes).lookup v.burn_stable_block_height =
      some v.burn_stable_block_hash ∧
    (v.burn_stable_block_height ≠ v.burn_block_height →
      ((BurnchainView.make_test_data delay filler
          v).last_burn_block_hashes).lookup v.burn_block_height =
        some v.burn_block_hash) := by
  refine ⟨?_, ?_, ?_⟩
  · intro h
    rw [make_test_data_lookup]
    by_cases hc : v.burn_stable_block_height - delay ≤ h
        ∧ h ≤ v.burn_block_height
    · rw [if_pos hc]
      simp [hc]
    · rw [if_neg hc]
      simp only [Option.isSome_none, Bool.false_eq_true, false_iff]
      exact hc
  · rw [make_test_data_lookup, if_pos (by omega), if_pos rfl]
  · intro hne
    rw [make_test_data_lookup, if_pos (by omega), if_neg (Ne.symm hne),
      if_pos rfl]

/-- Witness for C6 (amended): the spec's instance, tip 100 / stable 93 with
window 7. -/
theorem make_test_data_map_spec_witness :
    (93 : Nat) ≤ 100 ∧
    ((BurnchainView.make_test_data 7 (fun i => ⟨i + 1000⟩)
        ⟨100, ⟨11⟩, 93, ⟨22⟩, []⟩).last_burn_block_hashes).lookup 93 =
      some ⟨22⟩ ∧
    ((BurnchainView.make_test_data 7 (fun i => ⟨i + 1000⟩)
        ⟨100, ⟨11⟩, 93, ⟨22⟩, []⟩).last_burn_block_hashes).lookup 100 =
      some ⟨11⟩ :=
  ⟨by decide,
    (make_test_data_map_spec 7 (fun i => ⟨i + 1000⟩)
      ⟨100, ⟨11⟩, 93, ⟨22⟩, []⟩ (by decide)).2.1,
    (make_test_data_map_spec 7 (fun i => ⟨i + 1000⟩)
      ⟨100, ⟨11⟩, 93, ⟨22⟩, []⟩ (by decide)).2.2 (by decide)⟩

/-- Claim C7: `get_burn_amount` returns 0 for every constructed
`BurnchainTransaction` value. -/
theorem get_burn_amount_zero (tx : BurnchainTransaction) :
    tx.get_burn_amount = 0 :=
  rfl

/-- Claim C8: converting a lower-layer storage error into the core `Error`
type (`From<db_error>`, `From<sqlite_error>`, and the `FSError` wrapping of
`io::Error`) preserves the display text of the original error exactly. -/
theorem error_conversion_display_lossless :
    (∀ e : db_error, (Error.from_db_error e).display = e.display) ∧
    (∀ e : sqlite_error, (Error.from_sqlite_error e).display = e.display) ∧
    (∀ e : io_error, (Error.FSError e).display = e.display) :=
  ⟨fun _ => rfl, fun _ => rfl, fun _ => rfl⟩

/-- Counterexample for C9: `reward_cycle_length = 2^31 + 1`,
`prepare_length = 1` passes construction, yet `reward_slots` is 0 (the u32
product `2^31 * 2` wraps to 0) although `OUTPUTS_PER_COMMIT` is nonzero. -/
theorem reward_slots_positive_cex :
    PoxConstants.new 2147483649 1 1 0 0 0 0 =
      some ⟨2147483649, 1, 1, 0, 0, 0, 0⟩ ∧
    OUTPUTS_PER_COMMIT ≠ 0 ∧
    PoxConstants.reward_slots ⟨2147483649, 1, 1, 0, 0, 0, 0⟩ = 0 := by
  exact ⟨by decide, by decide, by decide⟩

/-- Claim C9 (amended): for every PoxConstants produced by `new`, the
subtraction in `reward_slots` cannot underflow (`prepare_length <
reward_cycle_length`), and `reward_slots` is strictly positive whenever
`OUTPUTS_PER_COMMIT` is nonzero and the slot product fits in u32. -/
theorem reward_slots_no_underflow_pos (r p a rf pct ss se : Nat)
    (v : PoxConstants) (hv : PoxConstants.new r p a rf pct ss se = some v) :
    v.prepare_length < v.reward_cycle_length ∧
    (OUTPUTS_PER_COMMIT ≠ 0 →
      (v.reward_cycle_length - v.prepare_length) * OUTPUTS_PER_COMMIT
        < U32_MOD →
      0 < v.reward_slots) := by
  unfold PoxConstants.new at hv
  by_cases hcond : a > p / 2 ∧ p < r ∧ ss ≤ se
  · rw [if_pos hcond] at hv
    injection hv with hv
    subst hv
    obtain ⟨h1, h2, h3⟩ := hcond
    refine ⟨h2, ?_⟩
    intro hopc hfit
    show 0 < ((r - p) * OUTPUTS_PER_COMMIT) % U32_MOD
    rw [Nat.mod_eq_of_lt
      (show (r - p) * OUTPUTS_PER_COMMIT < U32_MOD from hfit)]
    exact Nat.mul_pos (by omega) (Nat.pos_of_ne_zero hopc)
  · rw [if_neg hcond] at hv
    exact Option.noConfusion hv

/-- Witness for C9 (amended): the in-tree test constants. -/
theorem reward_slots_no_underflow_pos_witness :
    PoxConstants.new 10 5 3 25 5 5000 10000 =
      some PoxConstants.test_default_value ∧
    PoxConstants.test_default_value.prepare_length <
      PoxConstants.test_default_value.reward_cycle_length :=
  ⟨by decide,
    (reward_slots_no_underflow_pos 10 5 3 25 5 5000 10000
      PoxConstants.test_default_value (by decide)).1⟩

/-- Claim C10: when the stable block height equals the tip block height, the
map entry at that height is the stable block hash — the stable-height branch
takes precedence over the tip-height branch. -/
theorem make_test_data_stable_precedence (delay : Nat)
    (filler : Nat → BurnchainHeaderHash) (v : BurnchainView)
    (heq : v.burn_stable_block_height = v.burn_block_height) :
    ((BurnchainView.make_test_data delay filler
        v).last_burn_block_hashes).lookup v.burn_block_height =
      some v.burn_stable_block_hash := by
  rw [make_test_data_lookup, if_pos (by omega), if_pos heq.symm]

/-- Witness for C10: tip and stable both at height 7 with distinct hashes;
the map keeps the stable hash. -/
theorem make_test_data_stable_precedence_witness :
    ((BurnchainView.make_test_data 3 (fun i => ⟨i⟩)
        ⟨7, ⟨1⟩, 7, ⟨2⟩, []⟩).last_burn_block_hashes).lookup 7 = some ⟨2⟩ :=
  make_test_data_stable_precedence 3 (fun i => ⟨i⟩) ⟨7, ⟨1⟩, 7, ⟨2⟩, []⟩ rfl

end Burnchains
